import Mathlib

/-!
Verification of the kikuai-bot billing core against its specification.

The development shallowly embeds the parts of the source that the claims
touch:

* `KikuBilling.Balance` — the Redis balance manager
  (`src/api/services/balance_manager.py`, `RedisBalanceManager`): the Lua
  script that atomically checks the idempotency key, applies a signed
  delta, appends the transaction and trims the history, plus the Python
  wrapper that maps Lua results to typed errors.
* `KikuBilling.Crypto` — a concrete SHA-256 / HMAC-SHA256 over byte lists
  (`hashlib` / `hmac` stand-ins), used by the webhook-signature and
  API-key models.
* `KikuBilling.LemonSqueezy` — the card-provider adapter present in the
  source tree (`src/api/services/lemonsqueezy_provider.py`):
  `verify_webhook` and the signature-gate of `process_webhook`.
* `KikuBilling.Webhooks` — the `/webhooks/paddle` route handler's
  response mapping (`src/api/routes/webhooks.py`).
* `KikuBilling.Accounts` — the credential service
  (`src/api/services/account_service.py`): `create_api_key`,
  `verify_key`, `revoke_key` over an explicit key-store state.
* `KikuBilling.Stars` — the wallet completion-callback handler
  (`src/bot/handlers/payment.py`, `process_successful_stars_payment`).
* `KikuBilling.Payment` — the `/payment/topup` amount validation
  (`src/api/routes/payment.py`, `create_topup`).
* `KikuBilling.Proxy` — the idempotency keys used by the usage-charging
  layer (`src/api/routes/proxy.py`, `src/api/services/usage_tracker_v2.py`).

Monetary amounts are embedded as `Rat`: the source computes on Lua
numbers / Python `Decimal`s, and every claim here depends only on exact
comparisons and additions, which `Rat` models faithfully.  32-bit machine
arithmetic inside SHA-256 is `Nat` reduced modulo `2 ^ 32` at every step.
-/

namespace KikuBilling

namespace Crypto

/-- Reduce to a 32-bit word, the `% 2^32` that the source's C-level
SHA-256 performs implicitly on every operation. -/
def w32 (n : Nat) : Nat := n % 4294967296

/-- Right rotation of a 32-bit word by `k` bits. -/
def rotr (k n : Nat) : Nat := w32 ((n >>> k) ||| (n <<< (32 - k)))

/-- SHA-256 round constants (fractional parts of the cube roots of the
first 64 primes). -/
def shaK : List Nat :=
  [1116352408, 1899447441, 3049323471, 3921009573,
   961987163, 1508970993, 2453635748, 2870763221,
   3624381080, 310598401, 607225278, 1426881987,
   1925078388, 2162078206, 2614888103, 3248222580,
   3835390401, 4022224774, 264347078, 604807628,
   770255983, 1249150122, 1555081692, 1996064986,
   2554220882, 2821834349, 2952996808, 3210313671,
   3336571891, 3584528711, 113926993, 338241895,
   666307205, 773529912, 1294757372, 1396182291,
   1695183700, 1986661051, 2177026350, 2456956037,
   2730485921, 2820302411, 3259730800, 3345764771,
   3516065817, 3600352804, 4094571909, 275423344,
   430227734, 506948616, 659060556, 883997877,
   958139571, 1322822218, 1537002063, 1747873779,
   1955562222, 2024104815, 2227730452, 2361852424,
   2428436474, 2756734187, 3204031479, 3329325298]

/-- SHA-256 initial hash state. -/
def shaH0 : List Nat :=
  [1779033703, 3144134277, 1013904242, 2773480762,
   1359893119, 2600822924, 528734635, 1541459225]

def smallSigma0 (x : Nat) : Nat := rotr 7 x ^^^ rotr 18 x ^^^ (x >>> 3)

def smallSigma1 (x : Nat) : Nat := rotr 17 x ^^^ rotr 19 x ^^^ (x >>> 10)

def bigSigma0 (x : Nat) : Nat := rotr 2 x ^^^ rotr 13 x ^^^ rotr 22 x

def bigSigma1 (x : Nat) : Nat := rotr 6 x ^^^ rotr 11 x ^^^ rotr 25 x

def chFn (e f g : Nat) : Nat := (e &&& f) ^^^ ((e ^^^ 4294967295) &&& g)

def majFn (a b c : Nat) : Nat := (a &&& b) ^^^ (a &&& c) ^^^ (b &&& c)

/-- Group a byte list into big-endian 32-bit words; the fuel argument is
the maximal number of words produced. -/
def toWords : Nat → List Nat → List Nat
  | 0, _ => []
  | n + 1, b0 :: b1 :: b2 :: b3 :: rest =>
      (((b0 * 256 + b1) * 256 + b2) * 256 + b3) :: toWords n rest
  | _ + 1, _ => []

/-- One step of the message-schedule extension, reading the four taps
from the back of the accumulated schedule. -/
def schedStep (acc : List Nat) : Nat :=
  w32 (smallSigma1 (acc.getD (acc.length - 2) 0) +
       acc.getD (acc.length - 7) 0 +
       smallSigma0 (acc.getD (acc.length - 15) 0) +
       acc.getD (acc.length - 16) 0)

def extendSchedule : Nat → List Nat → List Nat
  | 0, acc => acc
  | n + 1, acc => extendSchedule n (acc ++ [schedStep acc])

/-- Expand a 16-word block to the 64-word message schedule. -/
def schedule (block : List Nat) : List Nat := extendSchedule 48 block

/-- One SHA-256 compression round on the 8-word working state. -/
def shaRound (st : List Nat) (k w : Nat) : List Nat :=
  match st with
  | [a, b, c, d, e, f, g, h] =>
      let t1 := w32 (h + bigSigma1 e + chFn e f g + k + w)
      let t2 := w32 (bigSigma0 a + majFn a b c)
      [w32 (t1 + t2), a, b, c, w32 (d + t1), e, f, g]
  | other => other

def shaRounds : List Nat → List Nat → List Nat → List Nat
  | st, k :: ks, w :: ws => shaRounds (shaRound st k w) ks ws
  | st, _, _ => st

/-- Compress one 64-byte block into the running hash state. -/
def compressBlock (h : List Nat) (block : List Nat) : List Nat :=
  let st := shaRounds h shaK (schedule (toWords 16 block))
  List.zipWith (fun x y => w32 (x + y)) h st

def shaBlocks : List Nat → List (List Nat) → List Nat
  | h, [] => h
  | h, b :: bs => shaBlocks (compressBlock h b) bs

/-- SHA-256 padding: `0x80`, zeros to 56 mod 64, 8-byte big-endian bit
length. -/
def padMessage (msg : List Nat) : List Nat :=
  let bitLen := msg.length * 8
  let zeros := (120 - (msg.length + 1) % 64) % 64
  msg ++ 128 :: List.replicate zeros 0 ++
    [56, 48, 40, 32, 24, 16, 8, 0].map (fun s => (bitLen >>> s) &&& 255)

/-- Split into 64-byte chunks; the fuel argument bounds the number of
chunks. -/
def chunks : Nat → List Nat → List (List Nat)
  | 0, _ => []
  | _ + 1, [] => []
  | n + 1, l => l.take 64 :: chunks n (l.drop 64)

def wordBytes (w : Nat) : List Nat :=
  [(w >>> 24) &&& 255, (w >>> 16) &&& 255, (w >>> 8) &&& 255, w &&& 255]

/-- SHA-256 of a byte list, as a 32-byte digest. -/
def sha256 (msg : List Nat) : List Nat :=
  let padded := padMessage msg
  (shaBlocks shaH0 (chunks padded.length padded)).flatMap wordBytes

/-- HMAC-SHA256 with 64-byte block size, as in Python's `hmac` module. -/
def hmacSha256 (key msg : List Nat) : List Nat :=
  let k0 := if 64 < key.length then sha256 key else key
  let k := k0 ++ List.replicate (64 - k0.length) 0
  sha256 (k.map (fun b => b ^^^ 92) ++ sha256 (k.map (fun b => b ^^^ 54) ++ msg))

def hexDigit (n : Nat) : Char :=
  if n < 10 then Char.ofNat (48 + n) else Char.ofNat (87 + n)

/-- Lowercase hex rendering of a byte list, as `hexdigest()` returns. -/
def hexOfBytes (bs : List Nat) : String :=
  String.mk (bs.flatMap (fun b => [hexDigit (b / 16), hexDigit (b % 16)]))

/-- UTF-8 encoding of one character, as Python's `str.encode("utf-8")`. -/
def utf8Bytes (c : Char) : List Nat :=
  let n := c.toNat
  if n < 128 then [n]
  else if n < 2048 then [192 + n / 64, 128 + n % 64]
  else if n < 65536 then
    [224 + n / 4096, 128 + (n / 64) % 64, 128 + n % 64]
  else
    [240 + n / 262144, 128 + (n / 4096) % 64, 128 + (n / 64) % 64, 128 + n % 64]

/-- Byte encoding of a whole string. -/
def strBytes (s : String) : List Nat := s.data.flatMap utf8Bytes

/-- `hmac.new(key, msg, hashlib.sha256).hexdigest()` on strings. -/
def hmacHex (key msg : List Nat) : String := hexOfBytes (hmacSha256 key msg)

end Crypto

namespace Str

/-- Whether the first character list is an initial segment of the
second. -/
def isPfxOf : List Char → List Char → Bool
  | [], _ => true
  | _ :: _, [] => false
  | a :: as, b :: bs => a == b && isPfxOf as bs

/-- Python's `str.startswith` (computable by kernel reduction, unlike
the byte-position-based core variant). -/
def startsWith (s pre : String) : Bool := isPfxOf pre.data s.data

def splitChar (sep : Char) : List Char → List (List Char)
  | [] => [[]]
  | c :: cs =>
      let r := splitChar sep cs
      if c == sep then [] :: r
      else
        match r with
        | h :: t => (c :: h) :: t
        | [] => [[c]]

/-- Python's `str.split(sep)` for a one-character separator: adjacent
separators yield empty fields and the empty string yields one empty
field. -/
def splitOn (s : String) (sep : Char) : List String :=
  (splitChar sep s.data).map String.mk

/-- Parse a non-empty all-digit string as a natural number. -/
def toNatDigits? (s : String) : Option Nat :=
  if s.data.isEmpty then none
  else if s.data.all (fun c => decide (48 ≤ c.toNat) && decide (c.toNat ≤ 57))
  then some (s.data.foldl (fun a c => a * 10 + (c.toNat - 48)) 0)
  else none

/-- Python's `s[n:]` on character counts. -/
def drop (s : String) (n : Nat) : String := String.mk (s.data.drop n)

/-- Character length. -/
def strLen (s : String) : Nat := s.data.length

end Str

namespace Balance

/-- The Redis state seen by `RedisBalanceManager`
(`src/api/services/balance_manager.py`):

* `users u` — the parsed `user:{u}` record, abstracted to its
  `balance_usd` field (`none` when the key is absent);
* `txns u` — the `transactions:{u}` list of transaction-JSON strings;
* `idem k` — whether the `idempotency:{k}` key exists (the `idempotency:`
  name-spacing is injective, so the model indexes by the bare key). -/
structure Store where
  users : Int → Option Rat
  txns : Int → List String
  idem : String → Bool

/-- A Redis instance with no keys. -/
def Store.empty : Store :=
  { users := fun _ => none, txns := fun _ => [], idem := fun _ => false }

/-- Result table of the Lua script inside `update_balance`. -/
inductive LuaResult where
  | duplicate (key : String)
  | insufficientBalance (balance : Rat)
  | ok (balance : Rat)
  deriving DecidableEq

/-- `redis.call('LTRIM', key, -n, -1)`: keep only the last `n` entries. -/
def ltrimLast (n : Nat) (l : List String) : List String :=
  l.drop (l.length - n)

/-- The Lua script of `RedisBalanceManager.update_balance`
(`src/api/services/balance_manager.py`, lines 45-104): check the
idempotency key, read the balance (0 when the user record is absent),
refuse a negative result for a negative amount, otherwise write the new
balance, `RPUSH` the transaction, `LTRIM` to the last 1000 entries and
mark the idempotency key. -/
def luaUpdateBalance (s : Store) (userId : Int) (amount : Rat)
    (txnJson : String) (key : String) : LuaResult × Store :=
  if s.idem key then
    (.duplicate key, s)
  else
    let currentBalance := (s.users userId).getD 0
    let newBalance := currentBalance + amount
    if decide (amount < 0) && decide (newBalance < 0) then
      (.insufficientBalance currentBalance, s)
    else
      (.ok newBalance,
       { users := fun u => if u = userId then some newBalance else s.users u,
         txns := fun u =>
           if u = userId then ltrimLast 1000 (s.txns u ++ [txnJson])
           else s.txns u,
         idem := fun k => if k = key then true else s.idem k })

/-- The typed errors raised by the Python wrapper. -/
inductive PayError where
  | duplicatePayment (key : String)
  | insufficientBalance (current required : Rat)
  deriving DecidableEq

/-- `RedisBalanceManager.update_balance` (lines 34-176): run the Lua
script and map its result — `duplicate` raises
`DuplicatePaymentError(idempotency_key)`, `insufficient_balance` raises
`InsufficientBalanceError(current, -amount)`, success returns the new
balance. -/
def update_balance (s : Store) (userId : Int) (amount : Rat)
    (txnJson : String) (idempotencyKey : String) :
    Except PayError Rat × Store :=
  match luaUpdateBalance s userId amount txnJson idempotencyKey with
  | (.duplicate k, s') => (.error (.duplicatePayment k), s')
  | (.insufficientBalance current, s') =>
      (.error (.insufficientBalance current (-amount)), s')
  | (.ok newBalance, s') => (.ok newBalance, s')

/-- `RedisBalanceManager.get_balance`: the stored `balance_usd`, 0 when
the record is absent. -/
def get_balance (s : Store) (userId : Int) : Rat :=
  (s.users userId).getD 0

/-- Whether an `update_balance` outcome applied the mutation (inserted a
transaction) rather than failing. -/
def applied : Except PayError Rat → Bool
  | .ok _ => true
  | .error _ => false

/-- Stores reachable from an empty Redis through `update_balance` calls:
`update_balance` is the only writer of `user:*` balances in the model. -/
inductive Reachable : Store → Prop where
  | init : Reachable Store.empty
  | step (s : Store) (userId : Int) (amount : Rat) (txnJson key : String) :
      Reachable s →
      Reachable (update_balance s userId amount txnJson key).2

end Balance

namespace LemonSqueezy

open Crypto

/-- The parts of a `WebhookEvent` that `verify_webhook` reads: the raw
request body (bytes) and the signature header string. -/
structure SignedEvent where
  rawBody : List Nat
  signature : String

/-- `LemonSqueezyProvider.verify_webhook`
(`src/api/services/lemonsqueezy_provider.py`, lines 194-221): reject when
no webhook secret is configured; otherwise HMAC-SHA256 the raw body with
the secret, strip an optional `sha256=` from the provided header, and
compare (the source's `hmac.compare_digest` is functionally string
equality). -/
def verify_webhook (webhookSecret : String) (event : SignedEvent) : Bool :=
  if webhookSecret = "" then false
  else
    let expectedSignature := hmacHex (strBytes webhookSecret) event.rawBody
    let provided :=
      if Str.startsWith event.signature "sha256=" then Str.drop event.signature 7
      else event.signature
    expectedSignature == provided

/-- Errors surfaced by `process_webhook`. -/
inductive WebhookError where
  | invalidSignature
  | processingError (message : String)
  deriving DecidableEq

/-- Webhook event with the fields `process_webhook` consumes beyond the
signature: the event type, the order id, and the `custom_data` block. -/
structure OrderEvent where
  eventType : String
  orderId : String
  customUserId : Option Int
  customCredits : Option Nat
  totalCents : Nat
  rawBody : List Nat
  signature : String

/-- A ledger-crediting step, abstracting
`self._balance_service.credit_balance`: it returns the updated ledger and
the applied transaction id. -/
def CreditFn (Ledger : Type) : Type :=
  Ledger → Int → Rat → Ledger × String

/-- `LemonSqueezyProvider.process_webhook` (lines 223-299): verify the
signature first and raise `InvalidSignatureError` on failure; ignore
event types other than `order_created`; ignore events missing `user_id`
or `credits`; otherwise credit `total / 100` dollars to the user through
the balance service.  The ledger is returned unchanged on every
non-crediting path. -/
def process_webhook {Ledger : Type} (credit : CreditFn Ledger)
    (webhookSecret : String) (ledger : Ledger) (event : OrderEvent) :
    Except WebhookError (Option String) × Ledger :=
  if ¬ verify_webhook webhookSecret
      { rawBody := event.rawBody, signature := event.signature } then
    (.error .invalidSignature, ledger)
  else if event.eventType ≠ "order_created" then
    (.ok none, ledger)
  else
    match event.customUserId, event.customCredits with
    | some userId, some _ =>
        let totalUsd : Rat := (event.totalCents : Rat) / 100
        let (ledger', txnId) := credit ledger userId totalUsd
        (.ok (some txnId), ledger')
    | _, _ => (.ok none, ledger)

end LemonSqueezy

namespace Webhooks

/-- An HTTP response: status code plus the JSON body rendered as
key-value pairs. -/
structure HttpResponse where
  status : Nat
  body : List (String × String)
  deriving DecidableEq

/-- The response mapping of `handle_paddle_webhook`
(`src/api/routes/webhooks.py`, lines 79-116), as a function of the
outcome of `_payment_engine.process_webhook`: an applied transaction and
an ignored event both answer 200; `InvalidSignatureError` is caught and
answered 200 with an error body (to prevent retries); any other
processing error becomes a 500 `HTTPException`. -/
def handle_paddle_webhook
    (outcome : Except LemonSqueezy.WebhookError (Option String)) :
    HttpResponse :=
  match outcome with
  | .ok (some txnId) =>
      { status := 200,
        body := [("status", "processed"), ("transaction_id", txnId)] }
  | .ok none =>
      { status := 200,
        body := [("status", "ignored"),
                 ("message", "Event already processed or not applicable")] }
  | .error .invalidSignature =>
      { status := 200,
        body := [("status", "error"), ("message", "Invalid signature")] }
  | .error (.processingError m) =>
      { status := 500, body := [("detail", "Processing error: " ++ m)] }

end Webhooks

namespace CardSpec

open Crypto

/-- Parse one `k=v` field of the signature header. -/
def fieldValue (name field : String) : Option String :=
  if Str.startsWith field (name ++ "=") then
    some (Str.drop field (Str.strLen name + 1))
  else none

/-- First `k=v` match among the `;`-separated fields. -/
def findField (name : String) (header : String) : Option String :=
  ((Str.splitOn header ';').filterMap (fieldValue name)).head?

/-- Acceptance condition asserted by the specification for the card
provider's webhook verification (spec §4.4), written from the spec's
words for comparison with the source: the header parses as
`ts=<unix-seconds>;h1=<hex-hmac-sha256>` with both fields present, the
timestamp is within 5 minutes of `now`, and `h1` equals the HMAC-SHA256
over `<ts> ":" <raw_body_bytes>` under the webhook secret. -/
def specAccepts (webhookSecret : String) (now : Int)
    (event : LemonSqueezy.SignedEvent) : Bool :=
  match findField "ts" event.signature, findField "h1" event.signature with
  | some tsStr, some h1 =>
      match Str.toNatDigits? tsStr with
      | some ts =>
          ((now - (ts : Int)).natAbs ≤ 300) &&
          h1 == hmacHex (strBytes webhookSecret)
                  (strBytes (toString ts ++ ":") ++ event.rawBody)
      | none => false
  | _, _ => false

end CardSpec

namespace Accounts

open Crypto

/-- One `api_keys` row, with the columns `AccountService` reads and
writes: `account_id`, `key_prefix`, `key_hash`, `label`, `scopes`,
`is_active`. -/
structure ApiKeyRow where
  accountId : String
  keyPfx : String
  keyHash : String
  label : String
  scopes : List String
  isActive : Bool
  deriving DecidableEq

/-- The Redis cache entry stored under `api_prefix:{prefix}`. -/
structure CacheEntry where
  accountId : String
  scopes : List String
  keyHash : String
  deriving DecidableEq

/-- State of the credential service: the `api_keys` table, the Redis
cache indexed by the bare key prefix (the `api_prefix:` name-spacing is
injective), and the set of existing account ids. -/
structure KeyState where
  keys : List ApiKeyRow
  cache : String → Option CacheEntry
  accounts : List String

/-- External effects `verify_key` performs, in order: the Redis prefix
lookup, the `api_keys` select, the `accounts` select. -/
inductive Access where
  | cacheGet (pfx : String)
  | dbSelect (pfx : String)
  | accountSelect (accountId : String)
  deriving DecidableEq

/-- `AccountService._hash_key`: HMAC-SHA256 of the API secret under the
server secret, hex-encoded. -/
def hashKey (serverSecret secret : String) : String :=
  hmacHex (strBytes serverSecret) (strBytes secret)

/-- `select(Account).where(Account.id == account_id)` followed by
`scalar_one_or_none()`. -/
def lookupAccount (st : KeyState) (accountId : String) : Option String :=
  if st.accounts.contains accountId then some accountId else none

/-- `AccountService.create_api_key`
(`src/api/services/account_service.py`, lines 69-122): build
`kikuai_{prefix}_{secret}` from the freshly generated prefix (12 hex
chars) and secret (43 url-safe base64 chars), store the row with the
HMAC hash, and populate the Redis cache entry for the prefix.  The
random generation happens outside the model: `pfx` and `secret` are
arguments.  The `is_active` column default of the absent
`api/db/base.py` is modelled from the spec: a created key is active. -/
def create_api_key (serverSecret : String) (st : KeyState)
    (accountId pfx secret label : String) (scopes : List String) :
    String × KeyState :=
  let rawKey := "kikuai_" ++ pfx ++ "_" ++ secret
  let keyHash := hashKey serverSecret secret
  let row : ApiKeyRow :=
    { accountId := accountId, keyPfx := pfx, keyHash := keyHash,
      label := label, scopes := scopes, isActive := true }
  let entry : CacheEntry :=
    { accountId := accountId, scopes := scopes, keyHash := keyHash }
  (rawKey,
   { keys := st.keys ++ [row],
     cache := fun k => if k = pfx then some entry else st.cache k,
     accounts := st.accounts })

/-- Result of `verify_key`: the returned `(account, scopes)` pair, the
external accesses performed, and the resulting state (the database
fallback repopulates the cache). -/
structure VerifyOutcome where
  account : Option String
  scopes : List String
  accesses : List Access
  state : KeyState

/-- `AccountService.verify_key` (lines 124-168): refuse keys that do not
start with `kikuai_` or do not split on `_` into exactly three parts,
without touching Redis or the database; otherwise hash the secret, try
the Redis cache by prefix (constant-time hash compare on a hit), and
fall back to the active database row, repopulating the cache on a
database match. -/
def verify_key (serverSecret : String) (st : KeyState) (rawKey : String) :
    VerifyOutcome :=
  if ¬ Str.startsWith rawKey "kikuai_" then
    { account := none, scopes := [], accesses := [], state := st }
  else
    let parts := Str.splitOn rawKey '_'
    if parts.length ≠ 3 then
      { account := none, scopes := [], accesses := [], state := st }
    else
      let pfx := parts.getD 1 ""
      let secret := parts.getD 2 ""
      let incomingHash := hashKey serverSecret secret
      match st.cache pfx with
      | some data =>
          if data.keyHash == incomingHash then
            { account := lookupAccount st data.accountId,
              scopes := data.scopes,
              accesses := [.cacheGet pfx, .accountSelect data.accountId],
              state := st }
          else
            { account := none, scopes := [],
              accesses := [.cacheGet pfx], state := st }
      | none =>
          match st.keys.find? (fun r => r.keyPfx == pfx && r.isActive) with
          | some row =>
              if row.keyHash == incomingHash then
                let entry : CacheEntry :=
                  { accountId := row.accountId, scopes := row.scopes,
                    keyHash := row.keyHash }
                { account := lookupAccount st row.accountId,
                  scopes := row.scopes,
                  accesses := [.cacheGet pfx, .dbSelect pfx,
                               .accountSelect row.accountId],
                  state := { st with
                    cache := fun k => if k = pfx then some entry
                                      else st.cache k } }
              else
                { account := none, scopes := [],
                  accesses := [.cacheGet pfx, .dbSelect pfx], state := st }
          | none =>
              { account := none, scopes := [],
                accesses := [.cacheGet pfx, .dbSelect pfx], state := st }

/-- `AccountService.revoke_key` (lines 170-200): find the key by owner
and prefix, flip `is_active` to false and evict the cache entry. -/
def revoke_key (st : KeyState) (accountId pfx : String) : KeyState :=
  if st.keys.any (fun r => r.accountId == accountId && r.keyPfx == pfx) then
    { keys := st.keys.map (fun r =>
        if r.accountId == accountId && r.keyPfx == pfx then
          { r with isActive := false }
        else r),
      cache := fun k => if k = pfx then none else st.cache k,
      accounts := st.accounts }
  else st

end Accounts

namespace Stars

/-- A `pending_stars:{payload}` record: the account, the star amount,
and the dollar amount of the invoice. -/
structure PendingStars where
  userId : Int
  stars : Nat
  usd : Rat
  deriving DecidableEq

/-- A TOPUP credit applied by the payment engine for a completed Stars
payment. -/
structure StarsTxn where
  userId : Int
  amountUsd : Rat
  chargeId : String
  deriving DecidableEq

/-- State touched by the completion-callback handler: the
`stars_processed:{charge_id}` markers, the `pending_stars:{payload}`
records, and the applied TOPUP transactions. -/
structure StarsState where
  processed : List String
  pending : String → Option PendingStars
  txns : List StarsTxn

/-- The fields of a `successful_payment` message the handler reads. -/
structure StarsMsg where
  userId : Int
  payload : String
  stars : Nat
  chargeId : String

/-- Modelled from the spec: `engine.process_webhook` for the wallet
provider (`TelegramStarsProvider.process_webhook`, in the absent
`api/services/payment_engine.py`) credits `usd` to the account as one
TOPUP transaction and returns it (spec §4.5; its tests in
`src/tests/test_telegram_stars_provider.py` show a transaction is
returned whenever the event carries a `user_id`, which the handler's
events always do). -/
def engineProcessStarsWebhook (st : StarsState) (m : StarsMsg) (usd : Rat) :
    StarsState × StarsTxn :=
  let txn : StarsTxn :=
    { userId := m.userId, amountUsd := usd, chargeId := m.chargeId }
  ({ st with txns := txn :: st.txns }, txn)

/-- `process_successful_stars_payment`
(`src/bot/handlers/payment.py`, lines 354-447): if
`stars_processed:{charge_id}` exists, return without touching the
balance; otherwise take the dollar amount from the pending record
(deleting it) or fall back to `stars / 50`, credit through the payment
engine, and mark the charge id as processed. -/
def process_successful_stars_payment (st : StarsState) (m : StarsMsg) :
    StarsState :=
  if st.processed.contains m.chargeId then st
  else
    let (usd, pending') :=
      match st.pending m.payload with
      | some p =>
          (p.usd, fun k => if k = m.payload then none else st.pending k)
      | none => ((m.stars : Rat) / 50, st.pending)
    let (st', _) :=
      engineProcessStarsWebhook { st with pending := pending' } m usd
    { st' with processed := m.chargeId :: st'.processed }

/-- Deliver the same completion callback `n` times in sequence. -/
def deliverN : Nat → StarsState → StarsMsg → StarsState
  | 0, st, _ => st
  | n + 1, st, m => deliverN n (process_successful_stars_payment st m) m

/-- Number of TOPUP transactions recorded for a charge id. -/
def topupCount (st : StarsState) (chargeId : String) : Nat :=
  (st.txns.filter (fun t => t.chargeId = chargeId)).length

end Stars

namespace Payment

/-- Outcome of the `/payment/topup` route body: a 503 when the payment
engine is missing, a 400 validation error, or the
`_payment_engine.create_payment` call with the built `PaymentRequest`. -/
inductive TopupOutcome where
  | serviceUnavailable503
  | validationError400 (detail : String)
  | checkout (userId : Int) (amountUsd : Rat)
  deriving DecidableEq

/-- `create_topup` (`src/api/routes/payment.py`, lines 53-89): refuse
when the engine is not initialized, refuse amounts outside `[5, 1000]`
with a 400, otherwise proceed to checkout creation for the account's
telegram id. -/
def create_topup (engineConfigured : Bool) (telegramId : Int)
    (amountUsd : Rat) : TopupOutcome :=
  if ¬ engineConfigured then .serviceUnavailable503
  else if decide (amountUsd < 5) || decide (amountUsd > 1000) then
    .validationError400 "Amount must be between $5 and $1000"
  else .checkout telegramId amountUsd

end Payment

namespace Proxy

/-- A call into `update_balance` / `record_usage`, keeping the fields
the idempotency claims are about. -/
structure BalanceCall where
  amount : Rat
  idempotencyKey : String
  deriving DecidableEq

/-- `UsageTracker.track_usage` (`src/api/services/usage_tracker_v2.py`,
lines 23-66): the cost is `price * units` and the ledger call uses the
`idempotency_key` argument supplied by the request layer, unchanged. -/
def track_usage_call (price : Rat) (units : Nat) (idempotencyKey : String) :
    BalanceCall :=
  { amount := price * (units : Rat), idempotencyKey := idempotencyKey }

/-- The idempotency key built by the failure-refund path of `proxy_llm`
(`src/api/routes/proxy.py`, line 138):
`f"refund_{user_id}_{secrets.token_hex(8)}"`.  The random
`secrets.token_hex(8)` draw is the `tokenHex` argument. -/
def refund_idempotency_key (userId : Int) (tokenHex : String) : String :=
  "refund_" ++ toString userId ++ "_" ++ tokenHex

/-- The refund `update_balance` call issued by `proxy_llm` when the
upstream request fails after charging (lines 116-146): it refunds the
estimate under the internally generated key.  `clientIdempotencyKey` is
the client-supplied `LLMRequest.idempotency_key` field, which this path
never reads. -/
def proxy_llm_failure_refund (userId : Int) (estimatedCost : Rat)
    (clientIdempotencyKey : Option String) (tokenHex : String) :
    BalanceCall :=
  { amount := estimatedCost,
    idempotencyKey := refund_idempotency_key userId tokenHex }

end Proxy

namespace Fixtures

/-- A Redis store whose only key is the idempotency marker `k`. -/
def storeWithK : Balance.Store :=
  { users := fun _ => none, txns := fun _ => [], idem := fun k => k == "k" }

/-- A signed event whose signature header is the plain hex HMAC of the
body under the secret `s` — the format LemonSqueezy actually sends,
carrying no `ts=`/`h1=` fields. -/
def bodyHmacEvent : LemonSqueezy.SignedEvent :=
  { rawBody := Crypto.strBytes "b",
    signature := Crypto.hmacHex (Crypto.strBytes "s") (Crypto.strBytes "b") }

/-- An order event carrying a signature that cannot verify. -/
def badSigEvent : LemonSqueezy.OrderEvent :=
  { eventType := "order_created", orderId := "o1", customUserId := some 1,
    customCredits := some 1000, totalCents := 1000,
    rawBody := Crypto.strBytes "b", signature := "bad" }

/-- A crediting function over a `Nat` ledger that counts applied
credits. -/
def countingCredit : LemonSqueezy.CreditFn Nat := fun l _ _ => (l + 1, "t1")

/-- A key-store holding one account and no keys. -/
def ks0 : Accounts.KeyState :=
  { keys := [], cache := fun _ => none, accounts := ["acc1"] }

/-- A 43-character url-safe-base64 secret containing an underscore — a
possible output of `secrets.token_urlsafe(32)`. -/
def underscoreSecret : String :=
  "abcdefghijklmnopqrstuvwxyz0123456789_ABCDEF"

/-- A Stars handler state with nothing processed or pending. -/
def starsClean : Stars.StarsState :=
  { processed := [], pending := fun _ => none, txns := [] }

/-- A Stars handler state in which charge `charge1` is already marked
processed. -/
def starsMarked : Stars.StarsState :=
  { processed := ["charge1"], pending := fun _ => none, txns := [] }

/-- A completion callback for charge `charge1`. -/
def starsMsg1 : Stars.StarsMsg :=
  { userId := 1, payload := "topup:1:123", stars := 100, chargeId := "charge1" }

end Fixtures

/-! Helper lemmas about the balance manager. -/

namespace Balance

theorem ltrimLast_length (n : Nat) (l : List String) :
    (ltrimLast n l).length = min n l.length := by
  simp only [ltrimLast, List.length_drop]
  omega

/-- A successful call appends its transaction (then trims); failures
leave the store untouched. -/
theorem update_balance_txns (s : Store) (userId : Int) (amount : Rat)
    (txnJson key : String) :
    (applied (update_balance s userId amount txnJson key).1 = true →
      (update_balance s userId amount txnJson key).2.txns userId =
        ltrimLast 1000 (s.txns userId ++ [txnJson])) ∧
    (applied (update_balance s userId amount txnJson key).1 = false →
      (update_balance s userId amount txnJson key).2 = s) := by
  unfold update_balance luaUpdateBalance
  by_cases hdup : s.idem key
  · simp [hdup, applied]
  · by_cases hneg : (decide (amount < 0) && decide ((s.users userId).getD 0 + amount < 0)) = true
    · simp [hdup, hneg, applied]
    · simp [hdup, hneg, applied]

/-- A successful call marks the idempotency key. -/
theorem update_balance_marks_key (s : Store) (userId : Int) (amount : Rat)
    (txnJson key : String)
    (h : applied (update_balance s userId amount txnJson key).1 = true) :
    (update_balance s userId amount txnJson key).2.idem key = true := by
  unfold update_balance luaUpdateBalance at *
  by_cases hdup : s.idem key
  · simp [hdup, applied] at h
  · by_cases hneg : (decide (amount < 0) && decide ((s.users userId).getD 0 + amount < 0)) = true
    · simp [hdup, hneg, applied] at h
    · simp [hdup, hneg, applied]

/-- A call on an already-present idempotency key fails with
`DuplicatePaymentError` and leaves the store untouched. -/
theorem update_balance_duplicate (s : Store) (userId : Int) (amount : Rat)
    (txnJson key : String) (h : s.idem key = true) :
    update_balance s userId amount txnJson key =
      (.error (.duplicatePayment key), s) := by
  unfold update_balance luaUpdateBalance
  simp [h]

/-- Balance non-negativity is preserved by one `update_balance` call. -/
theorem update_balance_nonneg (s : Store) (userId : Int) (amount : Rat)
    (txnJson key : String)
    (h : ∀ u, 0 ≤ get_balance s u) :
    ∀ u, 0 ≤ get_balance (update_balance s userId amount txnJson key).2 u := by
  intro u
  unfold update_balance luaUpdateBalance
  by_cases hdup : s.idem key
  · simpa [hdup] using h u
  · by_cases hneg : (decide (amount < 0) && decide ((s.users userId).getD 0 + amount < 0)) = true
    · simpa [hdup, hneg] using h u
    · have hneg' : ¬(amount < 0 ∧ (s.users userId).getD 0 + amount < 0) := by
        intro hc
        exact hneg (by simp [hc.1, hc.2])
      by_cases hu : u = userId
      · have hb := h userId
        simp only [get_balance] at hb ⊢
        simp only [hdup, if_false, hneg, if_neg, ite_false]
        rcases not_and_or.mp hneg' with hpos | hok
        · push_neg at hpos
          simp [hu]
          have : (0 : Rat) ≤ (s.users userId).getD 0 + amount :=
            add_nonneg hb hpos
          simpa using this
        · push_neg at hok
          simp [hu]
          simpa using hok
      · have hb := h u
        simp only [get_balance] at hb ⊢
        simp [hdup, hneg, hu]
        simpa using hb

/-- Transaction lists of other users are never touched. -/
theorem update_balance_txns_other (s : Store) (userId : Int) (amount : Rat)
    (txnJson key : String) (u : Int) (hu : u ≠ userId) :
    (update_balance s userId amount txnJson key).2.txns u = s.txns u := by
  unfold update_balance luaUpdateBalance
  by_cases hdup : s.idem key
  · simp [hdup]
  · by_cases hneg : (decide (amount < 0) && decide ((s.users userId).getD 0 + amount < 0)) = true
    · simp [hdup, hneg]
    · simp [hdup, hneg, hu]

end Balance

/-! Helper lemmas about the Stars completion-callback handler. -/

namespace Stars

/-- Processing an unmarked charge marks it and records exactly one more
TOPUP for it. -/
theorem process_stars_fresh (st : StarsState) (m : StarsMsg)
    (h : st.processed.contains m.chargeId = false) :
    (process_successful_stars_payment st m).processed.contains m.chargeId
      = true ∧
    topupCount (process_successful_stars_payment st m) m.chargeId =
      topupCount st m.chargeId + 1 := by
  have h' : m.chargeId ∉ st.processed := by simpa using h
  unfold process_successful_stars_payment engineProcessStarsWebhook
  cases hp : st.pending m.payload with
  | none =>
      simp [h', hp, topupCount]
  | some p =>
      simp [h', hp, topupCount]

/-- Processing a marked charge is a no-op. -/
theorem process_stars_marked (st : StarsState) (m : StarsMsg)
    (h : st.processed.contains m.chargeId = true) :
    process_successful_stars_payment st m = st := by
  have h' : m.chargeId ∈ st.processed := by simpa using h
  unfold process_successful_stars_payment
  simp [h']

/-- Repeated delivery after the charge is marked stays a no-op. -/
theorem deliverN_marked (n : Nat) (st : StarsState) (m : StarsMsg)
    (h : st.processed.contains m.chargeId = true) :
    deliverN n st m = st := by
  induction n with
  | zero => rfl
  | succ k ih =>
      unfold deliverN
      rw [process_stars_marked st m h]
      exact ih

end Stars

/-! The claims.  The Batteries rational operations are locally restored
to their definitional reducibility so that closed instances evaluate by
`decide` and `rfl`. -/

section

attribute [local semireducible] Rat.add Rat.mul Rat.sub Rat.inv

open Balance in
/-- C1, counterexample: two `update_balance` calls with the same
idempotency key `k` on account 1, each debiting 1 from an empty balance,
both fail with `InsufficientBalance` and neither inserts a transaction —
refuting "of any two apply calls with the same `idempotency_key` on the
same account, exactly one inserts a transaction". -/
theorem claim1_counterexample :
    applied (update_balance Store.empty 1 (-1) "t1" "k").1 = false ∧
    applied (update_balance (update_balance Store.empty 1 (-1) "t1" "k").2
        1 (-1) "t2" "k").1 = false ∧
    (update_balance (update_balance Store.empty 1 (-1) "t1" "k").2
        1 (-1) "t2" "k").2.txns 1 = [] := by
  refine ⟨by decide, by decide, by decide⟩

open Balance in
/-- C1 (amended): if the idempotency key is already present,
`update_balance` fails with `DuplicatePaymentError` and changes nothing;
and of any two `update_balance` calls with the same key on the same
account, at most one inserts a transaction — exactly one as soon as
either call succeeds (both can fail, inserting nothing). -/
theorem claim1_duplicate_key_idempotency :
    (∀ (s : Store) (userId : Int) (amount : Rat) (txnJson key : String),
        s.idem key = true →
        update_balance s userId amount txnJson key =
          (.error (.duplicatePayment key), s)) ∧
    (∀ (s : Store) (userId : Int) (a1 a2 : Rat) (t1 t2 key : String),
      (applied (update_balance s userId a1 t1 key).1 = true →
        (update_balance (update_balance s userId a1 t1 key).2
            userId a2 t2 key).1 = .error (.duplicatePayment key) ∧
        (update_balance s userId a1 t1 key).2.txns userId =
          ltrimLast 1000 (s.txns userId ++ [t1])) ∧
      (if applied (update_balance s userId a1 t1 key).1 = true then 1 else 0) +
        (if applied (update_balance (update_balance s userId a1 t1 key).2
            userId a2 t2 key).1 = true then 1 else 0) ≤ 1 ∧
      (applied (update_balance s userId a1 t1 key).1 = true ∨
        applied (update_balance (update_balance s userId a1 t1 key).2
            userId a2 t2 key).1 = true →
        (if applied (update_balance s userId a1 t1 key).1 = true then 1 else 0) +
          (if applied (update_balance (update_balance s userId a1 t1 key).2
              userId a2 t2 key).1 = true then 1 else 0) = 1)) := by
  constructor
  · exact fun s userId amount txnJson key h =>
      update_balance_duplicate s userId amount txnJson key h
  · intro s userId a1 a2 t1 t2 key
    by_cases h1 : applied (update_balance s userId a1 t1 key).1 = true
    · have hmark := update_balance_marks_key s userId a1 t1 key h1
      have hdup :=
        update_balance_duplicate (update_balance s userId a1 t1 key).2
          userId a2 t2 key hmark
      have h2 : applied ((update_balance (update_balance s userId a1 t1 key).2
          userId a2 t2 key).1) = false := by
        rw [hdup]
        rfl
      refine ⟨fun _ => ⟨by rw [hdup], (update_balance_txns s userId a1 t1 key).1 h1⟩, ?_, ?_⟩
      · simp [h1, h2]
      · intro _
        simp [h1, h2]
    · have h1f : applied (update_balance s userId a1 t1 key).1 = false := by
        revert h1
        cases applied (update_balance s userId a1 t1 key).1 <;> simp
      refine ⟨fun h => absurd h h1, ?_, ?_⟩
      · by_cases h2 : applied (update_balance (update_balance s userId a1 t1 key).2
            userId a2 t2 key).1 = true <;> simp [h1f, h2]
      · intro hor
        rcases hor with hl | hr
        · exact absurd hl h1
        · simp [h1f, hr]

open Balance in
/-- C1, witness: the duplicate branch and the two-calls branch of
`claim1_duplicate_key_idempotency`, instantiated — a call on the marked
key `k` fails with `DuplicatePaymentError` leaving the store untouched,
and after a successful first call the same-key second call is refused. -/
theorem claim1_witness :
    Fixtures.storeWithK.idem "k" = true ∧
    update_balance Fixtures.storeWithK 1 5 "t" "k" =
      (.error (.duplicatePayment "k"), Fixtures.storeWithK) ∧
    (update_balance (update_balance Store.empty 1 5 "t1" "k").2
        1 5 "t2" "k").1 = .error (.duplicatePayment "k") :=
  ⟨rfl,
   claim1_duplicate_key_idempotency.1 Fixtures.storeWithK 1 5 "t" "k" rfl,
   ((claim1_duplicate_key_idempotency.2 Store.empty 1 5 5 "t1" "t2" "k").1 rfl).1⟩

open Balance in
/-- C2: a debit that would drive the balance negative fails with
`InsufficientBalanceError(current, required)` and performs no state
change, and in consequence every store reachable through `update_balance`
calls keeps `balance_usd ≥ 0` for every account. -/
theorem claim2_nonnegative_balance :
    (∀ (s : Store) (userId : Int) (amount : Rat) (txnJson key : String),
        s.idem key = false → amount < 0 →
        get_balance s userId + amount < 0 →
        update_balance s userId amount txnJson key =
          (.error (.insufficientBalance (get_balance s userId) (-amount)),
           s)) ∧
    (∀ s, Reachable s → ∀ userId, 0 ≤ get_balance s userId) := by
  constructor
  · intro s userId amount txnJson key hfresh hneg hover
    have hover' : (s.users userId).getD 0 + amount < 0 := hover
    unfold update_balance luaUpdateBalance
    simp [hfresh, hneg, hover', get_balance]
  · intro s hs
    induction hs with
    | init => intro userId; simp [get_balance, Store.empty]
    | step s userId amount txnJson key _ ih =>
        exact update_balance_nonneg s userId amount txnJson key ih

open Balance in
/-- C2, witness: debiting 1 from the empty store's zero balance fails
with `InsufficientBalance(0, 1)` and leaves the store untouched, and the
empty store's balances are non-negative. -/
theorem claim2_witness :
    Store.empty.idem "k" = false ∧ (-1 : Rat) < 0 ∧
    get_balance Store.empty 1 + (-1) < 0 ∧
    update_balance Store.empty 1 (-1) "t" "k" =
      (.error (.insufficientBalance (get_balance Store.empty 1) (-(-1 : Rat))),
       Store.empty) ∧
    0 ≤ get_balance Store.empty 5 :=
  ⟨rfl, by norm_num, by norm_num [get_balance, Store.empty],
   claim2_nonnegative_balance.1 Store.empty 1 (-1) "t" "k" rfl (by norm_num)
     (by norm_num [get_balance, Store.empty]),
   claim2_nonnegative_balance.2 Store.empty .init 5⟩

open Balance in
/-- C10: every successful `update_balance` rewrites the account's
transaction list to the appended list trimmed to its last 1000 entries,
that list never exceeds 1000 entries, and a bound of 1000 on every
account's list is preserved by every call, successful or not. -/
theorem claim10_history_bound :
    ∀ (s : Store) (userId : Int) (amount : Rat) (txnJson key : String),
      (applied (update_balance s userId amount txnJson key).1 = true →
        (update_balance s userId amount txnJson key).2.txns userId =
          ltrimLast 1000 (s.txns userId ++ [txnJson]) ∧
        ((update_balance s userId amount txnJson key).2.txns userId).length
          ≤ 1000) ∧
      (∀ u, (s.txns u).length ≤ 1000 →
        ((update_balance s userId amount txnJson key).2.txns u).length
          ≤ 1000) := by
  intro s userId amount txnJson key
  constructor
  · intro h
    have heq := (update_balance_txns s userId amount txnJson key).1 h
    refine ⟨heq, ?_⟩
    rw [heq, ltrimLast_length]
    omega
  · intro u hu
    by_cases h : applied (update_balance s userId amount txnJson key).1 = true
    · by_cases huid : u = userId
      · subst huid
        have heq := (update_balance_txns s u amount txnJson key).1 h
        rw [heq, ltrimLast_length]
        omega
      · rw [update_balance_txns_other s userId amount txnJson key u huid]
        exact hu
    · have hf : applied (update_balance s userId amount txnJson key).1 = false := by
        revert h
        cases applied (update_balance s userId amount txnJson key).1 <;> simp
      rw [(update_balance_txns s userId amount txnJson key).2 hf]
      exact hu

open Balance in
/-- C10, witness: a successful credit of 5 on the empty store stores the
single-entry trimmed list for account 1, of length at most 1000. -/
theorem claim10_witness :
    applied (update_balance Store.empty 1 5 "t" "k").1 = true ∧
    (update_balance Store.empty 1 5 "t" "k").2.txns 1 =
      ltrimLast 1000 (Store.empty.txns 1 ++ ["t"]) ∧
    ((update_balance Store.empty 1 5 "t" "k").2.txns 1).length ≤ 1000 ∧
    ((update_balance Store.empty 1 5 "t" "k").2.txns 2).length ≤ 1000 :=
  ⟨rfl,
   ((claim10_history_bound Store.empty 1 5 "t" "k").1 rfl).1,
   ((claim10_history_bound Store.empty 1 5 "t" "k").1 rfl).2,
   (claim10_history_bound Store.empty 1 5 "t" "k").2 2 (by simp [Store.empty])⟩

/-- C3: whenever an event's signature fails verification,
`process_webhook` raises `InvalidSignatureError` and performs no ledger
write (the ledger is returned unchanged, for every crediting function),
and the webhook route answers it with HTTP 200 and body
`{status: "error", message: "Invalid signature"}`. -/
theorem claim3_invalid_signature_no_write :
    ∀ {Ledger : Type} (credit : LemonSqueezy.CreditFn Ledger)
      (secret : String) (ledger : Ledger) (ev : LemonSqueezy.OrderEvent),
      LemonSqueezy.verify_webhook secret
        { rawBody := ev.rawBody, signature := ev.signature } = false →
      LemonSqueezy.process_webhook credit secret ledger ev =
        (.error .invalidSignature, ledger) ∧
      Webhooks.handle_paddle_webhook
          (LemonSqueezy.process_webhook credit secret ledger ev).1 =
        { status := 200,
          body := [("status", "error"), ("message", "Invalid signature")] } := by
  intro Ledger credit secret ledger ev h
  have hp : LemonSqueezy.process_webhook credit secret ledger ev =
      (.error .invalidSignature, ledger) := by
    unfold LemonSqueezy.process_webhook
    simp [h]
  refine ⟨hp, ?_⟩
  rw [hp]
  rfl

set_option maxRecDepth 40000 in
/-- C3, witness: the fixture event carrying signature `bad` under secret
`s` fails verification, is rejected with `InvalidSignatureError`, leaves
the counting ledger at 0, and is answered 200 / Invalid signature. -/
theorem claim3_witness :
    LemonSqueezy.verify_webhook "s"
      { rawBody := Fixtures.badSigEvent.rawBody,
        signature := Fixtures.badSigEvent.signature } = false ∧
    LemonSqueezy.process_webhook Fixtures.countingCredit "s" 0
        Fixtures.badSigEvent = (.error .invalidSignature, 0) ∧
    Webhooks.handle_paddle_webhook
        (LemonSqueezy.process_webhook Fixtures.countingCredit "s" 0
          Fixtures.badSigEvent).1 =
      { status := 200,
        body := [("status", "error"), ("message", "Invalid signature")] } :=
  ⟨by decide,
   (claim3_invalid_signature_no_write Fixtures.countingCredit "s" 0
      Fixtures.badSigEvent (by decide)).1,
   (claim3_invalid_signature_no_write Fixtures.countingCredit "s" 0
      Fixtures.badSigEvent (by decide)).2⟩

set_option maxRecDepth 40000 in
/-- C4, counterexample: under secret `s`, the event whose signature
header is the plain hex HMAC-SHA256 of the raw body — LemonSqueezy's
actual header format, with no `ts=`/`h1=` fields and hence no timestamp
within any window — is accepted by the card provider's `verify_webhook`,
although the claimed acceptance condition (parsed `ts`/`h1`, timestamp
within 5 minutes, HMAC over `<ts> ":" <body>`) rejects it at any time,
e.g. at `now = 1700000000`. -/
theorem claim4_counterexample :
    LemonSqueezy.verify_webhook "s" Fixtures.bodyHmacEvent = true ∧
    CardSpec.specAccepts "s" 1700000000 Fixtures.bodyHmacEvent = false := by
  constructor
  · decide
  · decide

/-- C4 (amended): the card provider present in the source
(`LemonSqueezyProvider`) accepts an event iff a webhook secret is
configured and the signature header — with an optional `sha256=` marker
stripped — equals the hex HMAC-SHA256 of the raw body under that secret;
no timestamp is parsed and no replay window is enforced. -/
theorem claim4_verify_characterization :
    ∀ (secret : String) (ev : LemonSqueezy.SignedEvent),
      LemonSqueezy.verify_webhook secret ev = true ↔
        (secret ≠ "" ∧
          Crypto.hmacHex (Crypto.strBytes secret) ev.rawBody =
            (if Str.startsWith ev.signature "sha256=" then
              Str.drop ev.signature 7
             else ev.signature)) := by
  intro secret ev
  unfold LemonSqueezy.verify_webhook
  by_cases hs : secret = ""
  · simp [hs]
  · simp [hs]

set_option maxRecDepth 40000 in
/-- C4, witness: under secret `s`, the body-HMAC fixture event satisfies
the characterization's right-hand side and is accepted. -/
theorem claim4_witness :
    ("s" ≠ "" ∧
      Crypto.hmacHex (Crypto.strBytes "s") Fixtures.bodyHmacEvent.rawBody =
        (if Str.startsWith Fixtures.bodyHmacEvent.signature "sha256=" then
          Str.drop Fixtures.bodyHmacEvent.signature 7
         else Fixtures.bodyHmacEvent.signature)) ∧
    LemonSqueezy.verify_webhook "s" Fixtures.bodyHmacEvent = true :=
  ⟨⟨by decide, by decide⟩,
   (claim4_verify_characterization "s" Fixtures.bodyHmacEvent).mpr
     ⟨by decide, by decide⟩⟩

open Stars in
/-- C5: the completion-callback handler is idempotent in `charge_id` —
if `stars_processed:{charge_id}` is already set it performs no balance
mutation, and delivering the same completion callback any number of
times `n ≥ 1` from a state where the charge is new records exactly one
TOPUP transaction for it and leaves the processed marker set. -/
theorem claim5_stars_replay_idempotent :
    (∀ (st : StarsState) (m : StarsMsg),
        st.processed.contains m.chargeId = true →
        process_successful_stars_payment st m = st) ∧
    (∀ (st : StarsState) (m : StarsMsg) (n : Nat),
        1 ≤ n →
        st.processed.contains m.chargeId = false →
        topupCount st m.chargeId = 0 →
        topupCount (deliverN n st m) m.chargeId = 1 ∧
        (deliverN n st m).processed.contains m.chargeId = true) := by
  refine ⟨fun st m h => process_stars_marked st m h, ?_⟩
  intro st m n hn h0 hc
  obtain ⟨k, rfl⟩ : ∃ k, n = k + 1 := ⟨n - 1, by omega⟩
  have hfresh := process_stars_fresh st m h0
  have hstep : deliverN (k + 1) st m =
      deliverN k (process_successful_stars_payment st m) m := rfl
  have hrest : deliverN k (process_successful_stars_payment st m) m =
      process_successful_stars_payment st m :=
    deliverN_marked k (process_successful_stars_payment st m) m hfresh.1
  rw [hstep, hrest]
  exact ⟨by rw [hfresh.2, hc], hfresh.1⟩

open Stars in
/-- C5, witness: delivering the `charge1` completion callback twice to a
clean state yields exactly one TOPUP and a set marker, and a delivery on
an already-marked state changes nothing. -/
theorem claim5_witness :
    Fixtures.starsClean.processed.contains Fixtures.starsMsg1.chargeId
      = false ∧
    topupCount Fixtures.starsClean Fixtures.starsMsg1.chargeId = 0 ∧
    topupCount (deliverN 2 Fixtures.starsClean Fixtures.starsMsg1)
      Fixtures.starsMsg1.chargeId = 1 ∧
    (deliverN 2 Fixtures.starsClean Fixtures.starsMsg1).processed.contains
      Fixtures.starsMsg1.chargeId = true ∧
    Fixtures.starsMarked.processed.contains Fixtures.starsMsg1.chargeId
      = true ∧
    process_successful_stars_payment Fixtures.starsMarked Fixtures.starsMsg1
      = Fixtures.starsMarked :=
  ⟨rfl, rfl,
   (claim5_stars_replay_idempotent.2 Fixtures.starsClean Fixtures.starsMsg1 2
      (by norm_num) rfl rfl).1,
   (claim5_stars_replay_idempotent.2 Fixtures.starsClean Fixtures.starsMsg1 2
      (by norm_num) rfl rfl).2,
   rfl,
   claim5_stars_replay_idempotent.1 Fixtures.starsMarked Fixtures.starsMsg1
     rfl⟩

/-- C6, evaluation at the failing input: `create_api_key` can emit the
raw key `kikuai_aabbccddeeff_abcdefghijklmnopqrstuvwxyz0123456789_ABCDEF`
(its generated 43-character url-safe secret contains an underscore, as
`secrets.token_urlsafe(32)` produces about half the time); an immediate
`verify_key` on that very raw key returns `(none, [])` without touching
the cache or database, because `split("_")` yields four parts instead of
three — refuting the create/verify round trip. -/
theorem claim6_roundtrip_failing_input :
    (Accounts.create_api_key "srv" Fixtures.ks0 "acc1" "aabbccddeeff"
        Fixtures.underscoreSecret "default" []).1 =
      "kikuai_aabbccddeeff_abcdefghijklmnopqrstuvwxyz0123456789_ABCDEF" ∧
    (Str.splitOn
        (Accounts.create_api_key "srv" Fixtures.ks0 "acc1" "aabbccddeeff"
          Fixtures.underscoreSecret "default" []).1 '_').length = 4 ∧
    (Accounts.verify_key "srv"
        (Accounts.create_api_key "srv" Fixtures.ks0 "acc1" "aabbccddeeff"
          Fixtures.underscoreSecret "default" []).2
        (Accounts.create_api_key "srv" Fixtures.ks0 "acc1" "aabbccddeeff"
          Fixtures.underscoreSecret "default" []).1).account = none ∧
    (Accounts.verify_key "srv"
        (Accounts.create_api_key "srv" Fixtures.ks0 "acc1" "aabbccddeeff"
          Fixtures.underscoreSecret "default" []).2
        (Accounts.create_api_key "srv" Fixtures.ks0 "acc1" "aabbccddeeff"
          Fixtures.underscoreSecret "default" []).1).scopes = [] ∧
    (Accounts.verify_key "srv"
        (Accounts.create_api_key "srv" Fixtures.ks0 "acc1" "aabbccddeeff"
          Fixtures.underscoreSecret "default" []).2
        (Accounts.create_api_key "srv" Fixtures.ks0 "acc1" "aabbccddeeff"
          Fixtures.underscoreSecret "default" []).1).accesses = [] := by
  refine ⟨by decide, by decide, by decide, by decide, by decide⟩

/-- C7, counterexample: the failure-refund path of `proxy_llm` issues
its balance call under a key derived from a fresh `secrets.token_hex(8)`
draw — two runs of the identical client request (same user, same
estimate, same client-supplied idempotency key) use different refund
keys, so the key is generated internally rather than supplied by the
caller or derived from the client key / request id. -/
theorem claim7_counterexample :
    (Proxy.proxy_llm_failure_refund 1 (1 / 1000) (some "client-key-123")
        "aabbccdd").idempotencyKey ≠
      (Proxy.proxy_llm_failure_refund 1 (1 / 1000) (some "client-key-123")
        "eeff0011").idempotencyKey ∧
    (Proxy.proxy_llm_failure_refund 1 (1 / 1000) (some "client-key-123")
        "aabbccdd").idempotencyKey = "refund_1_aabbccdd" := by
  refine ⟨by decide, by decide⟩

/-- C7 (amended): the usage tracker's charge uses exactly the
caller-supplied idempotency key, while the proxy's failure-refund path
keys its balance call as `refund_<user_id>_<random-hex>`, independent of
any client-supplied idempotency key; no settlement-adjustment path
exists in the source. -/
theorem claim7_idempotency_key_provenance :
    (∀ (price : Rat) (units : Nat) (key : String),
        (Proxy.track_usage_call price units key).idempotencyKey = key) ∧
    (∀ (userId : Int) (cost : Rat) (clientKey : Option String)
        (tok : String),
        (Proxy.proxy_llm_failure_refund userId cost clientKey tok).idempotencyKey
          = Proxy.refund_idempotency_key userId tok ∧
        Proxy.refund_idempotency_key userId tok =
          "refund_" ++ toString userId ++ "_" ++ tok) :=
  ⟨fun _ _ _ => rfl, fun _ _ _ _ => ⟨rfl, rfl⟩⟩

/-- C8: with the payment engine configured, `/payment/topup` answers
every amount outside `[5, 1000]` with the 400 validation error and
creates no checkout, and proceeds to checkout creation for every amount
inside the closed interval. -/
theorem claim8_topup_amount_bounds :
    ∀ (telegramId : Int) (amountUsd : Rat),
      ((amountUsd < 5 ∨ amountUsd > 1000) →
        Payment.create_topup true telegramId amountUsd =
          .validationError400 "Amount must be between $5 and $1000") ∧
      (5 ≤ amountUsd → amountUsd ≤ 1000 →
        Payment.create_topup true telegramId amountUsd =
          .checkout telegramId amountUsd) := by
  intro telegramId amountUsd
  constructor
  · intro h
    unfold Payment.create_topup
    rcases h with h | h <;> simp [h]
  · intro h5 h1000
    have hn5 : ¬(amountUsd < 5) := not_lt.mpr h5
    have hn1000 : ¬(amountUsd > 1000) := not_lt.mpr h1000
    unfold Payment.create_topup
    simp [hn5, hn1000]

/-- C8, witness: amount 4 is refused with the 400 detail and amount 500
reaches checkout creation. -/
theorem claim8_witness :
    ((4 : Rat) < 5 ∨ (4 : Rat) > 1000) ∧
    Payment.create_topup true 7 4 =
      .validationError400 "Amount must be between $5 and $1000" ∧
    (5 : Rat) ≤ 500 ∧ (500 : Rat) ≤ 1000 ∧
    Payment.create_topup true 7 500 = .checkout 7 500 :=
  ⟨Or.inl (by norm_num),
   (claim8_topup_amount_bounds 7 4).1 (Or.inl (by norm_num)),
   by norm_num, by norm_num,
   (claim8_topup_amount_bounds 7 500).2 (by norm_num) (by norm_num)⟩

/-- C9: every raw key that does not start with `kikuai_` or does not
split on `_` into exactly three parts is rejected by `verify_key` as
`(none, [])`, with no cache or database access and no state change (and,
being a total function of the model, without raising). -/
theorem claim9_malformed_key_rejected :
    ∀ (serverSecret : String) (st : Accounts.KeyState) (rawKey : String),
      (Str.startsWith rawKey "kikuai_" = false ∨
        (Str.splitOn rawKey '_').length ≠ 3) →
      Accounts.verify_key serverSecret st rawKey =
        { account := none, scopes := [], accesses := [], state := st } := by
  intro serverSecret st rawKey h
  unfold Accounts.verify_key
  rcases h with h | h
  · simp [h]
  · by_cases hst : Str.startsWith rawKey "kikuai_"
    · simp [hst, h]
    · simp [hst]

/-- C9, witness: `bogus` (wrong scheme) and `kikuai_a_b_c` (four parts)
are both rejected without any access. -/
theorem claim9_witness :
    (Str.startsWith "bogus" "kikuai_" = false ∨
      (Str.splitOn "bogus" '_').length ≠ 3) ∧
    Accounts.verify_key "srv" Fixtures.ks0 "bogus" =
      { account := none, scopes := [], accesses := [],
        state := Fixtures.ks0 } ∧
    (Str.startsWith "kikuai_a_b_c" "kikuai_" = false ∨
      (Str.splitOn "kikuai_a_b_c" '_').length ≠ 3) ∧
    Accounts.verify_key "srv" Fixtures.ks0 "kikuai_a_b_c" =
      { account := none, scopes := [], accesses := [],
        state := Fixtures.ks0 } :=
  ⟨Or.inl (by decide),
   claim9_malformed_key_rejected "srv" Fixtures.ks0 "bogus"
     (Or.inl (by decide)),
   Or.inr (by decide),
   claim9_malformed_key_rejected "srv" Fixtures.ks0 "kikuai_a_b_c"
     (Or.inr (by decide))⟩

end

end KikuBilling
